import Mathlib

/-!
Verification of the privileged-operation execution and retry subsystem of the
MeshAdv-Mini installer tools.  The definitions below are shallow embeddings of
the Python functions in
`Data/Misc/Installer Scripts/meshtastic_configuration_tool.py` (V1) and
`Data/Misc/Installer Scripts/meshtasticd_config_tool_V2.py` (V2): external
process execution is abstracted by an oracle describing how each invoked
process behaves, and file contents are ordinary strings.
-/

namespace MeshAdv

/-- The Python `x in s` substring test on strings, as used throughout both
scripts (`"dtparam=spi=on" in config_content`, lock-error detection, ...). -/
def containsStr (hay needle : String) : Bool := decide (needle.data <:+: hay.data)

/-- `subprocess.CompletedProcess` as the scripts consume it: exit code and
captured, decoded stdout/stderr. -/
structure CmdResult where
  returncode : Int
  stdout : String
  stderr : String
deriving DecidableEq, Repr

/-! ## V2 `SystemManager.run_command` (lines 205-221)

`subprocess.run` is abstracted by a `ProcBehavior` oracle saying whether the
invoked process ran to completion (with some `CmdResult`), exceeded the
timeout (Python raises `subprocess.TimeoutExpired`), or could not be launched
at all (Python raises e.g. `FileNotFoundError`, carried here as a message). -/

inductive ProcBehavior where
  | completes (r : CmdResult)
  | timesOut
  | failsToLaunch (e : String)
deriving DecidableEq, Repr

/-- V2 `SystemManager.run_command`: returns the `CompletedProcess` when the
process completes (any exit code), and raises `MeshtasticError` — modelled as
`Except.error` with the formatted message — both on `TimeoutExpired` and on
any launch failure. -/
def run_command (cmd : List String) (behavior : ProcBehavior) : Except String CmdResult :=
  match behavior with
  | .completes r => .ok r
  | .timesOut => .error ("Command timed out: " ++ " ".intercalate cmd)
  | .failsToLaunch e => .error ("Command failed: " ++ e)

/-! ## V1/V2 SPI status check

V2 `StatusChecker.check_spi_status` (lines 294-310) and V1 `check_spi_status`
(lines 534-551) are character-for-character the same logic: device existence
is `os.path.exists("/dev/spidev0.0") or os.path.exists("/dev/spidev0.1")`,
and the boot config (read as a whole; `none` models an unreadable file, whose
exception is swallowed leaving `config_enabled = False`) must contain both
SPI markers. -/

def check_spi_status (dev_spidev00 dev_spidev01 : Bool)
    (boot_config : Option String) : Bool :=
  let devices_exist := dev_spidev00 || dev_spidev01
  let config_enabled :=
    match boot_config with
    | none => false
    | some content =>
        containsStr content "dtparam=spi=on" && containsStr content "dtoverlay=spi0-0cs"
  devices_exist && config_enabled

/-! ## V1 `safe_apt_command` (lines 777-827) and `check_and_fix_apt_locks` (lines 713-775)

`safe_apt_command` loops `for attempt in range(max_retries)`.  On every
iteration after the first it calls `check_and_fix_apt_locks()` and sleeps,
then runs the command; if the stderr of the result shows a lock error it retries
unless this was the last attempt, in which case the result is returned as-is.
The embedding returns the final `CompletedProcess` (the trailing `return None`
of the Python is the `none` case, reachable only when `max_retries = 0`)
together with the number of `check_and_fix_apt_locks` invocations; the command
run on attempt `i` (0-based) is given by the oracle `run i`. -/

def hasLockError (r : CmdResult) : Bool :=
  containsStr r.stderr "Could not get lock" || containsStr r.stderr "dpkg was interrupted"

def safeAptLoop (run : Nat → CmdResult) (max_retries : Nat)
    (attempt fixes : Nat) : Option CmdResult × Nat :=
  if attempt < max_retries then
    let fixes' := if 0 < attempt then fixes + 1 else fixes
    let result := run attempt
    if hasLockError result then
      if attempt < max_retries - 1 then
        safeAptLoop run max_retries (attempt + 1) fixes'
      else
        (some result, fixes')
    else
      (some result, fixes')
  else
    (none, fixes)
termination_by max_retries - attempt

def safe_apt_command (run : Nat → CmdResult) (max_retries : Nat) : Option CmdResult × Nat :=
  safeAptLoop run max_retries 0 0

/-- What one `sudo lsof <lock_file>` invocation reported: whether it exited 0
and whether its stdout was nonempty after `strip()`. -/
structure LsofReport where
  rc_zero : Bool
  out_nonempty : Bool
deriving DecidableEq, Repr

/-- The facts `check_and_fix_apt_locks` observes about the lock files: which
paths exist, what `lsof` reports on the first pass, and what it reports on the
second pass (after `killall -9 apt apt-get dpkg` and the 2-second sleep). -/
structure LockState where
  lock_exists : String → Bool
  lsof_before : String → LsofReport
  lsof_after : String → LsofReport

/-- The three lock-file paths hard-coded in `check_and_fix_apt_locks`. -/
def lock_files : List String :=
  ["/var/lib/dpkg/lock", "/var/lib/dpkg/lock-frontend", "/var/cache/apt/archives/lock"]

/-- First pass of `check_and_fix_apt_locks`: a path joins `locks_found` only
when the file exists and `lsof` exited 0 with nonempty output (the lock is
held by some process). -/
def locks_found (s : LockState) : List String :=
  lock_files.filter fun f =>
    s.lock_exists f && (s.lsof_before f).rc_zero && (s.lsof_before f).out_nonempty

/-- Second pass of `check_and_fix_apt_locks`: only when `locks_found` is
nonempty are apt processes killed and, for each member of `locks_found`, the
lock file removed if the re-run of `lsof` exits nonzero (no process using the
lock). This is the set of paths passed to `sudo rm -f`. -/
def removed_locks (s : LockState) : List String :=
  if (locks_found s).isEmpty then []
  else (locks_found s).filter fun f => !(s.lsof_after f).rc_zero

/-! ## V2 config-file edits (`_enable_spi` lines 1816-1857,
`_configure_meshadv_mini` lines 1938-1977)

The pure read-modify-write core of each handler: given the current content of
`/boot/firmware/config.txt`, produce the new content and the `config_updated`
flag that decides whether `tee` writes the file back. -/

def spiParamBlock : String := "\n# SPI Configuration\ndtparam=spi=on\n"

def spiHeaderBlock : String := "\n# SPI Configuration\n"

def spiOverlayLine : String := "dtoverlay=spi0-0cs\n"

/-- `_enable_spi`, lines 1833-1844: append the `dtparam=spi=on` block if its
marker is absent; append `dtoverlay=spi0-0cs` if absent, prefixing the comment
header only when the first block was not just added. -/
def enableSpiEdit (config_content : String) : String × Bool :=
  let step1 :=
    if containsStr config_content "dtparam=spi=on" = false then
      (config_content ++ spiParamBlock, true)
    else
      (config_content, false)
  if containsStr step1.1 "dtoverlay=spi0-0cs" = false then
    let content' := if step1.2 = false then step1.1 ++ spiHeaderBlock else step1.1
    (content' ++ spiOverlayLine, true)
  else
    step1

/-- The `meshadv_config` triple-quoted block of `_configure_meshadv_mini`. -/
def meshadvConfig : String :=
  "\n# MeshAdv Mini Configuration\n# GPIO 4 configuration - turn on at boot\ngpio=4=op,dh\n\n# PPS configuration for GPS on GPIO 17\ndtoverlay=pps-gpio,gpiopin=17\n"

/-- `_configure_meshadv_mini`, lines 1962-1973: append `meshadv_config` only
when the `"MeshAdv Mini Configuration"` marker is absent. -/
def meshadvEdit (config_content : String) : String × Bool :=
  if containsStr config_content "MeshAdv Mini Configuration" = false then
    (config_content ++ meshadvConfig, true)
  else
    (config_content, false)

/-! ## V2 `SystemManager.backup_file` (lines 252-261) -/

/-- `f"{filepath}.backup_{timestamp}"`. -/
def backupPath (filepath ts : String) : String := filepath ++ ".backup_" ++ ts

/-- `SystemManager.backup_file`: run `sudo cp filepath backup_path` through
`run_command` (whose behavior on that invocation is `cpBehavior`), ignore the
returned `CompletedProcess` entirely, and return the backup path; only a
raised exception (launch failure or timeout) is converted to
`ConfigurationError` ("Failed to backup ..."). -/
def backup_file (filepath ts : String) (cpBehavior : ProcBehavior) : Except String String :=
  let backup_path := backupPath filepath ts
  match run_command (["sudo", "cp", filepath, backup_path]) cpBehavior with
  | .ok _ => .ok backup_path
  | .error e => .error ("Failed to backup " ++ filepath ++ ": " ++ e)

/-! ## Effect trace of `_enable_spi`

`_enable_spi` in order: `raspi-config nonint do_spi 0`, `backup_file`
(i.e. `cp` to the timestamped path), `cat` of the config file, and — only when
`config_updated` ended up true — `tee` writing the new content back. -/

inductive Effect where
  | sudoCmd (cmd : List String)
  | sudoTee (path : String) (content : String)
deriving DecidableEq, Repr

def enable_spi_trace (boot_config_file ts content : String) : List Effect :=
  let edited := enableSpiEdit content
  [Effect.sudoCmd ["raspi-config", "nonint", "do_spi", "0"],
   Effect.sudoCmd ["cp", boot_config_file, backupPath boot_config_file ts],
   Effect.sudoCmd ["cat", boot_config_file]] ++
  (if edited.2 then [Effect.sudoTee boot_config_file edited.1] else [])

/-! ## V2 operation submission (`ThreadManager` lines 164-183,
`_run_operation_with_progress` lines 1084-1110,
`_show_progress_spinner` / `_hide_progress_spinner` lines 1034-1083)

`submit_task` hands the worker to the `ThreadPoolExecutor` unconditionally;
`_run_operation_with_progress` builds a worker closure and submits it without
consulting `active_operations`, so its outcome never depends on what is
already running.  `active_operations` (the per-id progress dialogs) is only
touched from inside the worker, by `_show_progress_spinner` (no-op when the id
is already present) and `_hide_progress_spinner` (removes the id). -/

inductive SubmitOutcome where
  | enqueued
  | alreadyRunningError
deriving DecidableEq, Repr

/-- `ThreadManager.submit_task`: always submits to the pool. The pending-task
queue is modelled by the list of submitted operation ids. -/
def submit_task (pending : List String) (operation_id : String) : List String :=
  pending ++ [operation_id]

/-- `_run_operation_with_progress`: define the worker and submit it; there is
no check of `active_operations` and no error path, so the outcome is always
`enqueued`. -/
def run_operation_with_progress (pending : List String) (operation_id : String) :
    SubmitOutcome × List String :=
  (SubmitOutcome.enqueued, submit_task pending operation_id)

/-- `_show_progress_spinner`: early-return when the id is already active,
otherwise create the dialog and record the id. -/
def show_progress_spinner (active : List String) (operation_id : String) : List String :=
  if operation_id ∈ active then active else active ++ [operation_id]

/-- `_hide_progress_spinner`: destroy the dialog and delete the id when
present. -/
def hide_progress_spinner (active : List String) (operation_id : String) : List String :=
  if operation_id ∈ active then active.erase operation_id else active

/-- The body of the `worker` closure in `_run_operation_with_progress`, for an
operation that completes: show the spinner, run `operation_func` (the Bool
records that it did run — there is no guard that could skip it), hide the
spinner. -/
def run_worker (active : List String) (operation_id : String) : List String × Bool :=
  let active1 := show_progress_spinner active operation_id
  (hide_progress_spinner active1 operation_id, true)

/-! ## Concrete fixtures used by witnesses and counterexamples -/

/-- Command mock for the retry scenario: lock contention on the first two
attempts, success on the third. -/
def mockAptRun : Nat → CmdResult := fun attempt =>
  if attempt < 2 then
    ⟨100, "", "E: Could not get lock /var/lib/dpkg/lock-frontend"⟩
  else
    ⟨0, "Reading package lists...", ""⟩

/-- A lock state where `/var/lib/dpkg/lock` exists but `lsof` finds no holder
on the first pass (a stale lock in the sense of the spec). -/
def staleLockState : LockState where
  lock_exists := fun f => f == "/var/lib/dpkg/lock"
  lsof_before := fun _ => ⟨false, false⟩
  lsof_after := fun _ => ⟨false, false⟩

/-- A lock state where `/var/lib/dpkg/lock` exists, is held on the first pass,
and is no longer held after the kill pass. -/
def releasedLockState : LockState where
  lock_exists := fun f => f == "/var/lib/dpkg/lock"
  lsof_before := fun f => ⟨f == "/var/lib/dpkg/lock", f == "/var/lib/dpkg/lock"⟩
  lsof_after := fun _ => ⟨false, false⟩

/-- Boot-config content that already carries both SPI markers. -/
def spiGoodConfig : String := "dtparam=spi=on\ndtoverlay=spi0-0cs\n"

/-- Boot-config content that already carries both SPI markers and the
MeshAdv Mini marker. -/
def allMarkersConfig : String :=
  "dtparam=spi=on\ndtoverlay=spi0-0cs\n# MeshAdv Mini Configuration\n"

/-- A `cp` invocation that launches but exits nonzero (the copy failed). -/
def cpFailedResult : CmdResult :=
  ⟨1, "", "cp: cannot stat /boot/firmware/config.txt: No such file or directory"⟩

/-! ## Helper lemmas -/

theorem containsStr_append_right (a b needle : String)
    (h : containsStr b needle = true) : containsStr (a ++ b) needle = true := by
  simp only [containsStr, decide_eq_true_eq] at h ⊢
  obtain ⟨s, t, hst⟩ := h
  refine ⟨a.data ++ s, t, ?_⟩
  have hd : (a ++ b).data = a.data ++ b.data := rfl
  rw [hd, ← hst]
  simp [List.append_assoc]

theorem containsStr_append_left (a b needle : String)
    (h : containsStr a needle = true) : containsStr (a ++ b) needle = true := by
  simp only [containsStr, decide_eq_true_eq] at h ⊢
  obtain ⟨s, t, hst⟩ := h
  refine ⟨s, t ++ b.data, ?_⟩
  have hd : (a ++ b).data = a.data ++ b.data := rfl
  rw [hd, ← hst]
  simp [List.append_assoc]

theorem removed_locks_eq (s : LockState) :
    removed_locks s = (locks_found s).filter fun f => !(s.lsof_after f).rc_zero := by
  by_cases h : (locks_found s).isEmpty = true
  · rw [removed_locks, if_pos h]
    rw [List.isEmpty_iff] at h
    rw [h, List.filter_nil]
  · rw [removed_locks, if_neg h]

/-! ## Claim theorems -/

/-- C2, counterexample: `/var/lib/dpkg/lock` exists and the first `lsof` check
reports no holding process, yet `check_and_fix_apt_locks` removes nothing —
the claim that such a stale lock file is deleted is false on the code. -/
theorem stale_lock_not_removed_counterexample :
    staleLockState.lock_exists "/var/lib/dpkg/lock" = true ∧
    (staleLockState.lsof_before "/var/lib/dpkg/lock").rc_zero = false ∧
    (staleLockState.lsof_before "/var/lib/dpkg/lock").out_nonempty = false ∧
    removed_locks staleLockState = [] := by
  refine ⟨rfl, rfl, rfl, ?_⟩
  decide

/-- C2, amended: `check_and_fix_apt_locks` deletes a lock file exactly when it
is one of the three known paths, it existed, the first `lsof` pass reported it
held (exit 0 with nonempty output), and the second `lsof` pass — after the
kill of apt processes — exited nonzero; a lock file that exists with no
holding process at the first check is never deleted. -/
theorem removed_locks_characterization (s : LockState) (f : String) :
    f ∈ removed_locks s ↔
      f ∈ lock_files ∧ s.lock_exists f = true ∧
      (s.lsof_before f).rc_zero = true ∧ (s.lsof_before f).out_nonempty = true ∧
      (s.lsof_after f).rc_zero = false := by
  rw [removed_locks_eq, List.mem_filter]
  unfold locks_found
  rw [List.mem_filter]
  simp [and_assoc, Bool.and_eq_true]

/-- C3: the delete branch of `check_and_fix_apt_locks` is reachable only for
a lock file that was found held on the first pass and whose re-check `lsof`
(run immediately before `rm`) exited nonzero, reporting no holding process —
a lock file the re-check reports as held is never deleted. -/
theorem removed_locks_only_unheld (s : LockState) (f : String)
    (h : f ∈ removed_locks s) :
    (s.lsof_after f).rc_zero = false ∧ f ∈ locks_found s := by
  rw [removed_locks_eq, List.mem_filter] at h
  exact ⟨by simpa using h.2, h.1⟩

/-- Witness for `removed_locks_only_unheld` at a concrete lock state in which
the dpkg lock was held, was released by the kill pass, and is removed. -/
theorem removed_locks_only_unheld_witness :
    (releasedLockState.lsof_after "/var/lib/dpkg/lock").rc_zero = false ∧
    "/var/lib/dpkg/lock" ∈ locks_found releasedLockState :=
  removed_locks_only_unheld releasedLockState "/var/lib/dpkg/lock" (by decide)

/-- C4, counterexample: on `subprocess.TimeoutExpired`, V2
`SystemManager.run_command` raises `MeshtasticError` instead of returning a
`CommandResult` with a timeout indicator — the timeout behavior of the claim is
false on the code. -/
theorem run_command_timeout_raises_counterexample :
    run_command ["apt-get", "install", "-y", "meshtasticd"] ProcBehavior.timesOut =
      Except.error "Command timed out: apt-get install -y meshtasticd" := by
  rfl

/-- C4, amended: `run_command` returns the `CompletedProcess` — with any exit
code, never raising on nonzero — for every command that runs to completion,
and raises `MeshtasticError` both when the command times out and when the
executable cannot be launched at all. -/
theorem run_command_error_policy (cmd : List String) (r : CmdResult) (e : String) :
    run_command cmd (ProcBehavior.completes r) = Except.ok r ∧
    run_command cmd ProcBehavior.timesOut =
      Except.error ("Command timed out: " ++ " ".intercalate cmd) ∧
    run_command cmd (ProcBehavior.failsToLaunch e) =
      Except.error ("Command failed: " ++ e) :=
  ⟨rfl, rfl, rfl⟩

/-- C8, counterexample: with `/dev/spidev0.0` absent but `/dev/spidev0.1`
present and both markers in the boot config, `check_spi_status` returns true,
refuting the claim that it is true only when `/dev/spidev0.0` exists. -/
theorem check_spi_status_spidev01_counterexample :
    check_spi_status false true (some spiGoodConfig) = true := by
  decide

/-- C8, amended: `check_spi_status` is true exactly when at least one of
`/dev/spidev0.0`, `/dev/spidev0.1` exists and the boot config was readable and
contains both `dtparam=spi=on` and `dtoverlay=spi0-0cs`; an unreadable config
yields false. -/
theorem check_spi_status_characterization (d0 d1 : Bool) (c : String) :
    check_spi_status d0 d1 (some c) =
      ((d0 || d1) &&
        (containsStr c "dtparam=spi=on" && containsStr c "dtoverlay=spi0-0cs")) ∧
    check_spi_status d0 d1 none = false := by
  refine ⟨rfl, ?_⟩
  simp [check_spi_status]

/-- C6: evaluating `SystemManager.backup_file` at the failing input — a `cp`
that launches but exits 1 without copying anything — shows it ignores the
exit status and reports the backup path as success, so the edit proceeds
instead of failing with `ConfigWriteError` as the claim (and the own "Failed to backup" error path of the function) requires. -/
theorem backup_file_ignores_cp_failure :
    cpFailedResult.returncode = 1 ∧
    backup_file "/boot/firmware/config.txt" "20240101_000000"
        (ProcBehavior.completes cpFailedResult) =
      Except.ok "/boot/firmware/config.txt.backup_20240101_000000" :=
  ⟨rfl, rfl⟩

/-- C7, counterexample: submitting `opA` while `opA` is already pending or
running is not rejected — `_run_operation_with_progress` enqueues it again
(there is no `AlreadyRunningError` anywhere in the code). -/
theorem duplicate_submit_not_rejected_counterexample :
    run_operation_with_progress ["opA"] "opA" = (SubmitOutcome.enqueued, ["opA", "opA"]) ∧
    (run_operation_with_progress ["opA"] "opA").1 ≠ SubmitOutcome.alreadyRunningError := by
  refine ⟨rfl, ?_⟩
  decide

/-- C7, amended: a submission is always accepted and enqueued on the worker
pool regardless of what is already running, and its worker always executes
the operation function; the only per-id exclusivity is the progress dialog —
`_show_progress_spinner` is a no-op when the id is already active. -/
theorem submit_always_enqueued (pending active : List String) (operation_id : String)
    (h : operation_id ∈ active) :
    run_operation_with_progress pending operation_id =
      (SubmitOutcome.enqueued, pending ++ [operation_id]) ∧
    show_progress_spinner active operation_id = active ∧
    (run_worker active operation_id).2 = true := by
  refine ⟨rfl, ?_, rfl⟩
  simp [show_progress_spinner, h]

/-- Witness for `submit_always_enqueued`: a second submission of `opA` while
`opA` is the active operation. -/
theorem submit_always_enqueued_witness :
    run_operation_with_progress ["opB", "opA"] "opA" =
      (SubmitOutcome.enqueued, ["opB", "opA", "opA"]) ∧
    show_progress_spinner ["opA"] "opA" = ["opA"] ∧
    (run_worker ["opA"] "opA").2 = true :=
  submit_always_enqueued ["opB", "opA"] ["opA"] "opA" (by decide)

/-- C10: `_enable_spi` runs `raspi-config nonint do_spi 0` and creates the
timestamped backup copy on every invocation; in the no-change case (both
markers already present, `config_updated = False`) the trace is exactly the
raspi-config call, the backup `cp`, and the `cat` read — the side effects are
not skipped, only the `tee` write is. -/
theorem enable_spi_backup_even_when_unchanged (file ts content : String)
    (h : (enableSpiEdit content).2 = false) :
    Effect.sudoCmd ["raspi-config", "nonint", "do_spi", "0"] ∈
      enable_spi_trace file ts content ∧
    Effect.sudoCmd ["cp", file, backupPath file ts] ∈ enable_spi_trace file ts content ∧
    enable_spi_trace file ts content =
      [Effect.sudoCmd ["raspi-config", "nonint", "do_spi", "0"],
       Effect.sudoCmd ["cp", file, backupPath file ts],
       Effect.sudoCmd ["cat", file]] := by
  unfold enable_spi_trace
  simp only [h]
  simp

/-- Witness for `enable_spi_backup_even_when_unchanged` on a config that
already contains both SPI markers. -/
theorem enable_spi_backup_even_when_unchanged_witness :
    Effect.sudoCmd ["raspi-config", "nonint", "do_spi", "0"] ∈
      enable_spi_trace "/boot/firmware/config.txt" "20240101_000000" spiGoodConfig ∧
    Effect.sudoCmd ["cp", "/boot/firmware/config.txt",
        backupPath "/boot/firmware/config.txt" "20240101_000000"] ∈
      enable_spi_trace "/boot/firmware/config.txt" "20240101_000000" spiGoodConfig ∧
    enable_spi_trace "/boot/firmware/config.txt" "20240101_000000" spiGoodConfig =
      [Effect.sudoCmd ["raspi-config", "nonint", "do_spi", "0"],
       Effect.sudoCmd ["cp", "/boot/firmware/config.txt",
         backupPath "/boot/firmware/config.txt" "20240101_000000"],
       Effect.sudoCmd ["cat", "/boot/firmware/config.txt"]] :=
  enable_spi_backup_even_when_unchanged "/boot/firmware/config.txt" "20240101_000000"
    spiGoodConfig (by decide)

theorem enableSpiEdit_id_of_contains (c : String)
    (h1 : containsStr c "dtparam=spi=on" = true)
    (h2 : containsStr c "dtoverlay=spi0-0cs" = true) :
    enableSpiEdit c = (c, false) := by
  unfold enableSpiEdit
  simp [h1, h2]

theorem meshadvEdit_id_of_contains (c : String)
    (h : containsStr c "MeshAdv Mini Configuration" = true) :
    meshadvEdit c = (c, false) := by
  unfold meshadvEdit
  simp [h]

theorem enableSpiEdit_contains (c : String) :
    containsStr (enableSpiEdit c).1 "dtparam=spi=on" = true ∧
    containsStr (enableSpiEdit c).1 "dtoverlay=spi0-0cs" = true := by
  have hb1 : containsStr spiParamBlock "dtparam=spi=on" = true := by decide
  have hb2 : containsStr spiOverlayLine "dtoverlay=spi0-0cs" = true := by decide
  unfold enableSpiEdit
  cases hp : containsStr c "dtparam=spi=on" with
  | false =>
    cases ho : containsStr (c ++ spiParamBlock) "dtoverlay=spi0-0cs" with
    | false =>
      simp [hp, ho]
      constructor
      · simpa using containsStr_append_left (c ++ spiParamBlock) spiOverlayLine
          "dtparam=spi=on" (containsStr_append_right c spiParamBlock "dtparam=spi=on" hb1)
      · simpa using containsStr_append_right (c ++ spiParamBlock) spiOverlayLine
          "dtoverlay=spi0-0cs" hb2
    | true =>
      simp [hp, ho]
      simpa using containsStr_append_right c spiParamBlock "dtparam=spi=on" hb1
  | true =>
    cases ho : containsStr c "dtoverlay=spi0-0cs" with
    | false =>
      simp [hp, ho]
      constructor
      · simpa using containsStr_append_left (c ++ spiHeaderBlock) spiOverlayLine
          "dtparam=spi=on" (containsStr_append_left c spiHeaderBlock "dtparam=spi=on" hp)
      · simpa using containsStr_append_right (c ++ spiHeaderBlock) spiOverlayLine
          "dtoverlay=spi0-0cs" hb2
    | true =>
      simp [hp, ho]

theorem meshadvEdit_contains (c : String) :
    containsStr (meshadvEdit c).1 "MeshAdv Mini Configuration" = true := by
  have hb : containsStr meshadvConfig "MeshAdv Mini Configuration" = true := by decide
  unfold meshadvEdit
  cases hm : containsStr c "MeshAdv Mini Configuration" with
  | false =>
    simpa using containsStr_append_right c meshadvConfig "MeshAdv Mini Configuration" hb
  | true =>
    simpa using hm

/-- C5: when the relevant marker substrings are already present, the edit
procedures leave the file content byte-identical and report no change
(`config_updated = False`, so the `tee` write-back is skipped and nothing is
re-appended): `_enable_spi` with both SPI markers present and
`_configure_meshadv_mini` with its marker present. -/
theorem edit_present_no_change (c : String)
    (h1 : containsStr c "dtparam=spi=on" = true)
    (h2 : containsStr c "dtoverlay=spi0-0cs" = true)
    (h3 : containsStr c "MeshAdv Mini Configuration" = true) :
    enableSpiEdit c = (c, false) ∧ meshadvEdit c = (c, false) :=
  ⟨enableSpiEdit_id_of_contains c h1 h2, meshadvEdit_id_of_contains c h3⟩

/-- Witness for `edit_present_no_change` on a config carrying all three
markers. -/
theorem edit_present_no_change_witness :
    enableSpiEdit allMarkersConfig = (allMarkersConfig, false) ∧
    meshadvEdit allMarkersConfig = (allMarkersConfig, false) :=
  edit_present_no_change allMarkersConfig (by decide) (by decide) (by decide)

/-- C9: both edit procedures are idempotent on file content — applying
the `_enable_spi` edit (resp. the `_configure_meshadv_mini` edit) to its own
output changes nothing, so running the procedure twice yields the same final
file content as running it once. -/
theorem config_edit_idempotent (c : String) :
    enableSpiEdit (enableSpiEdit c).1 = ((enableSpiEdit c).1, false) ∧
    meshadvEdit (meshadvEdit c).1 = ((meshadvEdit c).1, false) := by
  constructor
  · obtain ⟨h1, h2⟩ := enableSpiEdit_contains c
    exact enableSpiEdit_id_of_contains _ h1 h2
  · exact meshadvEdit_id_of_contains _ (meshadvEdit_contains c)

/-- C1: with `max_retries = 3` and a command that reports lock contention on
attempts 1 and 2 (0-based 0 and 1) and succeeds on attempt 3,
`safe_apt_command` returns the attempt-3 result and `check_and_fix_apt_locks`
is invoked exactly twice (once at the top of each retry iteration). -/
theorem safe_apt_command_lock_retry (run : Nat → CmdResult)
    (h0 : hasLockError (run 0) = true) (h1 : hasLockError (run 1) = true)
    (h2 : hasLockError (run 2) = false) :
    safe_apt_command run 3 = (some (run 2), 2) := by
  unfold safe_apt_command
  rw [safeAptLoop]
  simp only [h0]
  norm_num
  rw [safeAptLoop]
  simp only [h1]
  norm_num
  rw [safeAptLoop]
  simp only [h2]
  norm_num

/-- Witness for `safe_apt_command_lock_retry` on the mock command that holds
the lock twice and then succeeds. -/
theorem safe_apt_command_lock_retry_witness :
    safe_apt_command mockAptRun 3 = (some (mockAptRun 2), 2) :=
  safe_apt_command_lock_retry mockAptRun (by decide) (by decide) (by decide)

end MeshAdv
